import Mathlib

/-!
Verification of the request-session lifecycle of the Node SDK client
(`packages/node/src/client.ts`) and of the transaction sampling engine,
modelled as a shallow embedding in Lean 4.

Conventions of the embedding:
* TypeScript objects become Lean structures; `undefined`-able fields become
  `Option`.
* In-place mutation of a `Scope` is modelled by returning the updated scope
  value: the value returned by `captureException` / `captureEvent` is the
  scope as it stands at the moment the method delegates to the base class.
* Calls into collaborators (logger, flusher, base class) that the claims talk
  about are reified as small inductive "effect" values recording which call
  was made and with which arguments.
-/

namespace Sentry

/-- Request-session status enumeration (`RequestSessionStatus` from
`@sentry/types`). -/
inductive RequestSessionStatus where
  | ok
  | errored
  | crashed
  | abnormal
  | exited
  deriving DecidableEq, Repr

/-- A request session record: `{ status: RequestSessionStatus }`. -/
structure RequestSession where
  status : RequestSessionStatus
  deriving DecidableEq, Repr

/-- The part of a `Scope` that the Node client reads and writes: its optional
request session (`scope.getRequestSession()` / mutation of its `status`). -/
structure Scope where
  requestSession : Option RequestSession
  deriving DecidableEq, Repr

/-- The request-session status carried by an optional scope, if any. -/
def requestStatusOf : Option Scope → Option RequestSessionStatus
  | none => none
  | some s => s.requestSession.map RequestSession.status

/-- Modelled from the spec: the `SessionFlusher` of `@sentry/hub` (its source
is not under `src/`; only `client.ts` callers and tests are). Per the spec it
is "bound to this client's outbound transport and `{release, environment}`",
keeps a table of pending request-session outcomes, counts flush invocations,
and runs a periodic timer.  `transport` is an abstract handle. -/
structure SessionFlusher where
  transport : Nat
  release : String
  environment : Option String
  isEnabled : Bool
  timerRunning : Bool
  pending : List RequestSessionStatus
  flushCount : Nat
  sentAggregates : List (List RequestSessionStatus)
  deriving DecidableEq, Repr

/-- Modelled from the spec: constructing a `SessionFlusher` bound to a
transport and a release/environment pair; the periodic timer starts running
and the flusher is enabled. -/
def SessionFlusher.init (transport : Nat) (release : String)
    (environment : Option String) : SessionFlusher :=
  { transport := transport
    release := release
    environment := environment
    isEnabled := true
    timerRunning := true
    pending := []
    flushCount := 0
    sentAggregates := [] }

/-- Modelled from the spec: `flush()` atomically drains the pending table; a
drain with zero entries sends nothing.  `flushCount` counts flush calls. -/
def SessionFlusher.flush (f : SessionFlusher) : SessionFlusher :=
  { f with
    pending := []
    flushCount := f.flushCount + 1
    sentAggregates :=
      if f.pending = [] then f.sentAggregates else f.sentAggregates ++ [f.pending] }

/-- Modelled from the spec: `close()` disables the flusher, cancels the
periodic timer, and performs one final `flush()`. -/
def SessionFlusher.close (f : SessionFlusher) : SessionFlusher :=
  SessionFlusher.flush { f with isEnabled := false, timerRunning := false }

/-- Modelled from the spec: `incrementSessionStatusCount` records one
request-session outcome in the pending table; increments on a closed
(disabled) flusher are ignored. -/
def SessionFlusher.incrementSessionStatusCount (f : SessionFlusher)
    (st : RequestSessionStatus) : SessionFlusher :=
  if f.isEnabled then { f with pending := f.pending ++ [st] } else f

/-- The Node SDK client state that the claims are about: the
`autoSessionTracking` option, the `release`/`environment` options, an
abstract transport handle (`this._backend.getTransport()`), and the optional
`_sessionFlusher`. -/
structure NodeClient where
  autoSessionTracking : Bool
  release : Option String
  environment : Option String
  transport : Nat
  sessionFlusher : Option SessionFlusher
  deriving DecidableEq, Repr

/-- `NodeClient.captureException` (client.ts lines 42–57), restricted to its
effect on the scope's request session.  Mirrors:
`if (this._options.autoSessionTracking && this._sessionFlusher && scope)` then
read `scope.getRequestSession()` and, when present with status `Ok`, set its
status to `Errored`; the returned scope is the scope value passed on to
`super.captureException`. -/
def NodeClient.captureException (client : NodeClient) (scope : Option Scope) :
    Option Scope :=
  match scope with
  | none => none
  | some s =>
    if client.autoSessionTracking && client.sessionFlusher.isSome then
      match s.requestSession with
      | some rs =>
        if rs.status = RequestSessionStatus.ok then
          some { s with requestSession := some { rs with status := RequestSessionStatus.errored } }
        else
          some s
      | none => some s
    else
      some s

/-- An `Event`'s exception payload: `{ values?: ExceptionValue[] }`. -/
structure EventException where
  values : Option (List String)
  deriving DecidableEq, Repr

/-- The part of an `Event` the Node client inspects: its `type`, `message`
and `exception` fields.  Exception values are kept as their `type` strings. -/
structure Event where
  type : Option String := none
  message : Option String := none
  exception : Option EventException := none
  deriving DecidableEq, Repr

/-- `const eventType = event.type || 'exception'` — JavaScript `||` treats
both `undefined` and the empty string as falsy. -/
def Event.eventType (e : Event) : String :=
  match e.type with
  | none => "exception"
  | some t => if t = "" then "exception" else t

/-- `const isException = eventType === 'exception' && event.exception &&
event.exception.values && event.exception.values.length > 0` (client.ts lines
68–69). -/
def Event.isException (e : Event) : Bool :=
  decide (e.eventType = "exception") &&
    (match e.exception with
     | some ex =>
       match ex.values with
       | some vs => decide (0 < vs.length)
       | none => false
     | none => false)

/-- `NodeClient.captureEvent` (client.ts lines 62–84), restricted to its
effect on the scope's request session: the `Ok → Errored` transition happens
only when the guard options hold and the event is classified as an exception
(`isException`). -/
def NodeClient.captureEvent (client : NodeClient) (e : Event)
    (scope : Option Scope) : Option Scope :=
  match scope with
  | none => none
  | some s =>
    if client.autoSessionTracking && client.sessionFlusher.isSome then
      if e.isException then
        match s.requestSession with
        | some rs =>
          if rs.status = RequestSessionStatus.ok then
            some { s with requestSession := some { rs with status := RequestSessionStatus.errored } }
          else
            some s
        | none => some s
      else
        some s
    else
      some s

/-- A capture call made against the client: `captureException(...)` (the
exception argument does not affect the session logic) or
`captureEvent(event, ...)`. -/
inductive CaptureCall where
  | exc
  | evt (e : Event)

/-- Apply one capture call to a scope, as the client does. -/
def NodeClient.applyCapture (client : NodeClient) (scope : Option Scope) :
    CaptureCall → Option Scope
  | CaptureCall.exc => client.captureException scope
  | CaptureCall.evt e => client.captureEvent e scope

/-- The two outward calls `NodeClient.close` makes, in order:
`this._sessionFlusher?.close()` and `super.close(timeout)` (client.ts lines
90–93).  The `timeout` argument is forwarded to the base class and plays no
role in the flusher effect. -/
inductive CloseAction where
  | flusherClose
  | baseClose
  deriving DecidableEq, Repr

/-- `NodeClient.close` (client.ts lines 90–93): close the session flusher if
one exists, then delegate to the base client's close.  Returns the updated
client together with the ordered list of calls made. -/
def NodeClient.close (client : NodeClient) : NodeClient × List CloseAction :=
  match client.sessionFlusher with
  | some f =>
    ({ client with sessionFlusher := some f.close },
     [CloseAction.flusherClose, CloseAction.baseClose])
  | none => (client, [CloseAction.baseClose])

/-- `NodeClient.initSessionFlusher` (client.ts lines 96–106): if `release` is
falsy (`undefined` or the empty string) a warning is logged and nothing is
constructed; otherwise a `SessionFlusher` bound to the client's transport and
its release/environment pair is installed.  Returns the updated client and
whether the warning was logged.  The function is total: no case throws. -/
def NodeClient.initSessionFlusher (client : NodeClient) : NodeClient × Bool :=
  match client.release with
  | none => (client, true)
  | some rel =>
    if rel = "" then (client, true)
    else
      ({ client with sessionFlusher := some (SessionFlusher.init client.transport rel client.environment) },
       false)

/-- The observable effect of `NodeClient._captureRequestSession`: either the
session is discarded with a warning, or `incrementSessionStatusCount` is
invoked; `args` records the arguments passed at the call site. -/
inductive RequestSessionEffect where
  | discardedWithWarning
  | incrementCalled (args : List RequestSessionStatus)
  deriving DecidableEq, Repr

/-- `NodeClient._captureRequestSession` (client.ts lines 123–129): if no
flusher is active, warn and discard; otherwise call
`this._sessionFlusher.incrementSessionStatusCount()` — the call site passes
no arguments. -/
def NodeClient.captureRequestSessionEffect (client : NodeClient) :
    RequestSessionEffect :=
  match client.sessionFlusher with
  | none => RequestSessionEffect.discardedWithWarning
  | some _ => RequestSessionEffect.incrementCalled []

/-! ## The transaction sampling engine

The sampling code (`sample` / `isValidSampleRate` in
`packages/tracing/src/hubextensions.ts`) is not under `src/`; only its test
suite is.  The definitions below are therefore modelled from the spec's
§4.2 contract for `decideSampling`. -/

/-- A JavaScript value supplied as a sample rate: a boolean, a finite number
(kept exact as a rational), `NaN`, or some other (non-boolean, non-numeric)
value. -/
inductive SampleRateValue where
  | boolVal (b : Bool)
  | numVal (q : ℚ)
  | nanVal
  | otherVal
  deriving DecidableEq, Repr

/-- Which sampling rule produced the decision (`TransactionSamplingMethod`
from `@sentry/types`). -/
inductive TransactionSamplingMethod where
  | explicitDecision
  | sampler
  | rate
  | inheritance
  deriving DecidableEq, Repr

/-- The two rejection warnings of the sample-rate validation rule: a wrong
type (non-boolean/non-numeric, or `NaN`) versus an out-of-bounds number. -/
inductive SamplingWarning where
  | invalidType
  | outOfRange
  deriving DecidableEq, Repr

/-- Modelled from the spec: the validation rule shared by the custom-sampler
and static-rate steps — accept booleans and numbers in `[0, 1]`; reject
`NaN`, other types, and out-of-bounds numbers. -/
def isValidSampleRate : SampleRateValue → Bool
  | SampleRateValue.boolVal _ => true
  | SampleRateValue.numVal q => decide (0 ≤ q) && decide (q ≤ 1)
  | SampleRateValue.nanVal => false
  | SampleRateValue.otherVal => false

/-- Modelled from the spec: the warnings logged by one validation of a sample
rate — empty for a valid value, and exactly one warning identifying the
violated constraint otherwise. -/
def rateWarnings : SampleRateValue → List SamplingWarning
  | SampleRateValue.boolVal _ => []
  | SampleRateValue.numVal q =>
    if 0 ≤ q ∧ q ≤ 1 then [] else [SamplingWarning.outOfRange]
  | SampleRateValue.nanVal => [SamplingWarning.invalidType]
  | SampleRateValue.otherVal => [SamplingWarning.invalidType]

/-- A boolean rate is treated as 1 or 0; a numeric rate is itself. -/
def toRateNum : SampleRateValue → ℚ
  | SampleRateValue.boolVal b => if b then 1 else 0
  | SampleRateValue.numVal q => q
  | SampleRateValue.nanVal => 0
  | SampleRateValue.otherVal => 0

/-- The transaction context fields consumed by the sampling engine. -/
structure TransactionContext where
  name : String
  parentSampled : Option Bool := none
  sampled : Option Bool := none

/-- The sampling configuration of the client options: an optional static rate
and an optional custom sampler function. -/
structure SamplingConfig where
  tracesSampleRate : Option SampleRateValue := none
  tracesSampler : Option (TransactionContext → SampleRateValue) := none

/-- The outcome of a sampling decision: the boolean decision, the recorded
method and rate metadata, and the warnings logged during the call. -/
structure SamplingDecision where
  sampled : Bool
  method : Option TransactionSamplingMethod
  rate : Option ℚ
  warnings : List SamplingWarning
  deriving Repr

/-- Modelled from the spec: `decideSampling` (§4.2 steps 1–7).  `rnd` stands
for the value drawn from `random()`, a number in `[0, 1)`.
1. an explicit boolean `sampled` on the context is honored verbatim;
2. with neither a rate nor a sampler configured the decision is `false`;
3. a configured sampler's return value is validated and used as the rate;
4. otherwise a boolean `parentSampled` is honored verbatim;
5. otherwise the static rate is validated and used;
invalid values (steps 3 and 5) log one warning and force `false`. -/
def decideSampling (cfg : SamplingConfig) (ctx : TransactionContext)
    (rnd : ℚ) : SamplingDecision :=
  match ctx.sampled with
  | some b =>
    { sampled := b
      method := some TransactionSamplingMethod.explicitDecision
      rate := none
      warnings := [] }
  | none =>
    if cfg.tracesSampleRate.isNone && cfg.tracesSampler.isNone then
      { sampled := false, method := none, rate := none, warnings := [] }
    else
      match cfg.tracesSampler with
      | some f =>
        let v := f ctx
        if isValidSampleRate v then
          { sampled := decide (rnd < toRateNum v)
            method := some TransactionSamplingMethod.sampler
            rate := some (toRateNum v)
            warnings := [] }
        else
          { sampled := false, method := none, rate := none
            warnings := rateWarnings v }
      | none =>
        match ctx.parentSampled with
        | some b =>
          { sampled := b
            method := some TransactionSamplingMethod.inheritance
            rate := none
            warnings := [] }
        | none =>
          match cfg.tracesSampleRate with
          | some v =>
            if isValidSampleRate v then
              { sampled := decide (rnd < toRateNum v)
                method := some TransactionSamplingMethod.rate
                rate := some (toRateNum v)
                warnings := [] }
            else
              { sampled := false, method := none, rate := none
                warnings := rateWarnings v }
          | none =>
            { sampled := false, method := none, rate := none, warnings := [] }

/-! ## Concrete instances used by witnesses -/

/-- A freshly initialised flusher, as built for release `1.4`. -/
def wFlusher : SessionFlusher := SessionFlusher.init 0 "1.4" none

/-- A client with session tracking enabled and an active flusher. -/
def wClient : NodeClient :=
  { autoSessionTracking := true
    release := some "1.4"
    environment := none
    transport := 0
    sessionFlusher := some wFlusher }

/-- A scope holding a request session with status `Ok`. -/
def wScopeOk : Scope := { requestSession := some { status := RequestSessionStatus.ok } }

/-- A scope holding a request session with status `Crashed`. -/
def wScopeCrashed : Scope :=
  { requestSession := some { status := RequestSessionStatus.crashed } }

/-- A scope holding a request session with status `Errored`. -/
def wScopeErrored : Scope :=
  { requestSession := some { status := RequestSessionStatus.errored } }

/-- The exception event of the test suite:
`{ message: 'message', exception: { values: [{ type: 'exception type 1' }] } }`. -/
def wEvent : Event :=
  { message := some "message"
    exception := some { values := some ["exception type 1"] } }

/-! ## Theorems -/

/-- Claim C1: `captureException` transitions the scope's request-session
status to `Errored` exactly when `autoSessionTracking` is on, a flusher is
initialised, a scope is supplied and its request session has status `Ok`;
in every other case the scope (hence the status) is left unchanged. -/
theorem captureException_session_transition_iff (client : NodeClient)
    (scope : Option Scope) :
    ((client.autoSessionTracking = true ∧ client.sessionFlusher.isSome = true ∧
        ∃ s rs, scope = some s ∧ s.requestSession = some rs ∧
          rs.status = RequestSessionStatus.ok) →
      requestStatusOf (client.captureException scope) =
        some RequestSessionStatus.errored) ∧
    (¬(client.autoSessionTracking = true ∧ client.sessionFlusher.isSome = true ∧
        ∃ s rs, scope = some s ∧ s.requestSession = some rs ∧
          rs.status = RequestSessionStatus.ok) →
      client.captureException scope = scope) := by
  constructor
  · rintro ⟨ht, hf, s, rs, rfl, hrs, hok⟩
    simp [NodeClient.captureException, requestStatusOf, ht, hf, hrs, hok]
  · intro hn
    rcases scope with _ | s
    · rfl
    · rcases hrs : s.requestSession with _ | rs
      · simp [NodeClient.captureException, hrs]
      · by_cases hok : rs.status = RequestSessionStatus.ok
        · have hg : (client.autoSessionTracking && client.sessionFlusher.isSome) = false := by
            cases h1 : client.autoSessionTracking
            · simp
            · cases h2 : client.sessionFlusher.isSome
              · simp
              · exact absurd ⟨h1, h2, s, rs, rfl, hrs, hok⟩ hn
          simp [NodeClient.captureException, hg]
        · simp only [NodeClient.captureException, hrs]
          split
          · simp [hok]
          · rfl

/-- Witness for C1 at the concrete client and `Ok` scope of the test suite. -/
theorem captureException_session_transition_iff_witness :
    requestStatusOf (wClient.captureException (some wScopeOk)) =
      some RequestSessionStatus.errored :=
  (captureException_session_transition_iff wClient (some wScopeOk)).1
    ⟨rfl, rfl, wScopeOk, { status := RequestSessionStatus.ok }, rfl, rfl, rfl⟩

/-- A single capture call leaves a scope with a non-`Ok` request session
entirely unchanged. -/
theorem applyCapture_nonOk_fixed (client : NodeClient) (s : Scope)
    (rs : RequestSession) (hrs : s.requestSession = some rs)
    (hne : rs.status ≠ RequestSessionStatus.ok) (call : CaptureCall) :
    client.applyCapture (some s) call = some s := by
  cases call with
  | exc =>
    simp only [NodeClient.applyCapture, NodeClient.captureException, hrs]
    split
    · simp [hne]
    · rfl
  | evt e =>
    simp only [NodeClient.applyCapture, NodeClient.captureEvent, hrs]
    split
    · split
      · simp [hne]
      · rfl
    · rfl

/-- Claim C2: against a scope whose request session is in a status other
than `Ok`, any sequence of `captureException` / `captureEvent` calls leaves
the scope (hence the status, after each call) unchanged: the capture path
never changes a non-`Ok` status. -/
theorem capture_path_preserves_nonOk_status (client : NodeClient)
    (scope : Option Scope) (st : RequestSessionStatus)
    (calls : List CaptureCall) (h1 : requestStatusOf scope = some st)
    (h2 : st ≠ RequestSessionStatus.ok) :
    List.foldl client.applyCapture scope calls = scope := by
  rcases scope with _ | s
  · simp [requestStatusOf] at h1
  · rcases hrs : s.requestSession with _ | rs
    · rw [requestStatusOf, hrs] at h1; simp at h1
    · have hst : rs.status = st := by
        simpa [requestStatusOf, hrs] using h1
      induction calls with
      | nil => rfl
      | cons c cs ih =>
        rw [List.foldl_cons,
          applyCapture_nonOk_fixed client s rs hrs (hst ▸ h2) c]
        exact ih

/-- Witness for C2: a `Crashed` scope survives an exception capture followed
by an exception-event capture untouched. -/
theorem capture_path_preserves_nonOk_status_witness :
    List.foldl wClient.applyCapture (some wScopeCrashed)
      [CaptureCall.exc, CaptureCall.evt wEvent] = some wScopeCrashed :=
  capture_path_preserves_nonOk_status wClient (some wScopeCrashed)
    RequestSessionStatus.crashed [CaptureCall.exc, CaptureCall.evt wEvent]
    rfl (by decide)

/-- Claim C3: with tracking enabled, an active flusher and an `Ok` request
session, `captureEvent` transitions the status to `Errored` exactly when the
event is classified as an exception-type event with at least one exception
value; a `transaction`-typed event, or an exception-typed event with an
absent or empty value list, leaves the scope unchanged. -/
theorem captureEvent_exception_classification (client : NodeClient)
    (s : Scope) (rs : RequestSession) (e : Event)
    (ht : client.autoSessionTracking = true)
    (hf : client.sessionFlusher.isSome = true)
    (hs : s.requestSession = some rs)
    (hok : rs.status = RequestSessionStatus.ok) :
    (requestStatusOf (client.captureEvent e (some s)) =
        some RequestSessionStatus.errored ↔ e.isException = true) ∧
    (e.isException = false → client.captureEvent e (some s) = some s) ∧
    (e.type = some "transaction" → client.captureEvent e (some s) = some s) ∧
    (e.exception = none → client.captureEvent e (some s) = some s) ∧
    (∀ ex, e.exception = some ex → (ex.values = none ∨ ex.values = some []) →
      client.captureEvent e (some s) = some s) := by
  have hcase : ∀ hE : e.isException = false,
      client.captureEvent e (some s) = some s := by
    intro hE
    simp [NodeClient.captureEvent, ht, hf, hE]
  constructor
  · by_cases hE : e.isException
    · simp [NodeClient.captureEvent, ht, hf, hE, hs, hok, requestStatusOf]
    · rw [hcase (Bool.not_eq_true _ ▸ hE)]
      simp [requestStatusOf, hs, hok, hE]
  refine ⟨hcase, ?_, ?_, ?_⟩
  · intro hty
    refine hcase ?_
    simp [Event.isException, Event.eventType, hty]
  · intro hex
    refine hcase ?_
    simp [Event.isException, hex]
  · rintro ex hex (hv | hv) <;>
      exact hcase (by simp [Event.isException, hex, hv])

/-- Witness for C3 at the exception event of the test suite. -/
theorem captureEvent_exception_classification_witness :
    requestStatusOf (wClient.captureEvent wEvent (some wScopeOk)) =
      some RequestSessionStatus.errored :=
  ((captureEvent_exception_classification wClient wScopeOk
      { status := RequestSessionStatus.ok } wEvent rfl rfl rfl rfl).1).mpr rfl

/-- Claim C10: an event whose `type` is absent (`undefined` or the empty
string) is classified as exception-typed; with tracking enabled, an active
flusher, an `Ok` request session and a non-empty exception value list it
transitions the status to `Errored`. -/
theorem typeless_event_classified_as_exception (client : NodeClient)
    (s : Scope) (rs : RequestSession) (e : Event) (vs : List String)
    (ht : client.autoSessionTracking = true)
    (hf : client.sessionFlusher.isSome = true)
    (hs : s.requestSession = some rs)
    (hok : rs.status = RequestSessionStatus.ok)
    (hty : e.type = none ∨ e.type = some "")
    (hex : e.exception = some { values := some vs }) (hne : vs ≠ []) :
    e.isException = true ∧
    requestStatusOf (client.captureEvent e (some s)) =
      some RequestSessionStatus.errored := by
  have hA : e.eventType = "exception" := by
    rcases hty with h | h <;> simp [Event.eventType, h]
  have hE : e.isException = true := by
    simp [Event.isException, hA, hex, List.length_pos, hne]
  exact ⟨hE, by simp [NodeClient.captureEvent, ht, hf, hE, hs, hok, requestStatusOf]⟩

/-- Witness for C10: an event with `type: ''` and one exception value. -/
theorem typeless_event_classified_as_exception_witness :
    requestStatusOf (wClient.captureEvent
        { type := some "", exception := some { values := some ["exception type 1"] } }
        (some wScopeOk)) = some RequestSessionStatus.errored :=
  (typeless_event_classified_as_exception wClient wScopeOk
      { status := RequestSessionStatus.ok }
      { type := some "", exception := some { values := some ["exception type 1"] } }
      ["exception type 1"] rfl rfl rfl rfl (Or.inr rfl) rfl
      (List.cons_ne_nil _ _)).2

/-- Counterexample to claim C4 as stated: at a client with an active flusher
and a scope whose final request-session status is `Errored`, the code invokes
`incrementSessionStatusCount` with an empty argument list — not with the
status as its argument. -/
theorem captureRequestSession_no_status_argument :
    requestStatusOf (some wScopeErrored) = some RequestSessionStatus.errored ∧
    wClient.sessionFlusher.isSome = true ∧
    wClient.captureRequestSessionEffect =
      RequestSessionEffect.incrementCalled [] ∧
    wClient.captureRequestSessionEffect ≠
      RequestSessionEffect.incrementCalled [RequestSessionStatus.errored] := by
  refine ⟨rfl, rfl, rfl, ?_⟩
  decide

/-- Claim C4 (amended): `_captureRequestSession` warns and discards the
request session when no flusher is active; otherwise it invokes the
flusher's `incrementSessionStatusCount` with no arguments (the flusher
itself derives the scope's request-session status). -/
theorem captureRequestSession_effect (client : NodeClient) :
    (client.sessionFlusher = none →
      client.captureRequestSessionEffect =
        RequestSessionEffect.discardedWithWarning) ∧
    (∀ f, client.sessionFlusher = some f →
      client.captureRequestSessionEffect =
        RequestSessionEffect.incrementCalled []) := by
  constructor
  · intro h; simp [NodeClient.captureRequestSessionEffect, h]
  · intro f h; simp [NodeClient.captureRequestSessionEffect, h]

/-- Witness for the amended C4 at a client with an active flusher. -/
theorem captureRequestSession_effect_witness :
    wClient.captureRequestSessionEffect =
      RequestSessionEffect.incrementCalled [] :=
  (captureRequestSession_effect wClient).2 wFlusher rfl

/-- Claim C5: on a client with an initialised flusher, `close` closes the
flusher (disabling further increments, cancelling the timer, and flushing)
before delegating to the base client's close, and produces exactly one
additional flush call — for every flusher state, in particular when the
periodic timer is no longer running. -/
theorem close_closes_flusher_and_flushes_once (client : NodeClient)
    (f : SessionFlusher) (h : client.sessionFlusher = some f) :
    (client.close).2 = [CloseAction.flusherClose, CloseAction.baseClose] ∧
    (client.close).1.sessionFlusher = some f.close ∧
    f.close.isEnabled = false ∧
    f.close.timerRunning = false ∧
    f.close.flushCount = f.flushCount + 1 ∧
    (∀ st, f.close.incrementSessionStatusCount st = f.close) := by
  refine ⟨?_, ?_, rfl, rfl, rfl, ?_⟩
  · simp [NodeClient.close, h]
  · simp [NodeClient.close, h]
  · intro st
    simp [SessionFlusher.incrementSessionStatusCount, SessionFlusher.close,
      SessionFlusher.flush]

/-- Witness for C5 on a flusher whose periodic timer has been stopped. -/
theorem close_closes_flusher_and_flushes_once_witness :
    (({ wClient with
        sessionFlusher := some { wFlusher with timerRunning := false } } :
          NodeClient).close).2 =
        [CloseAction.flusherClose, CloseAction.baseClose] ∧
    ({ wFlusher with timerRunning := false } :
        SessionFlusher).close.flushCount =
      ({ wFlusher with timerRunning := false } :
        SessionFlusher).flushCount + 1 :=
  ⟨(close_closes_flusher_and_flushes_once _
      { wFlusher with timerRunning := false } rfl).1,
   (close_closes_flusher_and_flushes_once
      { wClient with sessionFlusher := some { wFlusher with timerRunning := false } }
      { wFlusher with timerRunning := false } rfl).2.2.2.2.1⟩

/-- Claim C9: `initSessionFlusher` on a client whose options lack a release
warns and leaves the client without a flusher — so capture calls make no
session-status transition and `_captureRequestSession` discards the session;
with a release present it installs a `SessionFlusher` bound to the client's
transport and release/environment pair.  The operation is total (it never
throws). -/
theorem initSessionFlusher_release_guard (client : NodeClient)
    (hno : client.sessionFlusher = none) :
    ((client.release = none ∨ client.release = some "") →
      (client.initSessionFlusher).2 = true ∧
      (client.initSessionFlusher).1 = client ∧
      (∀ scope, (client.initSessionFlusher).1.captureException scope = scope) ∧
      (∀ e scope, (client.initSessionFlusher).1.captureEvent e scope = scope) ∧
      (client.initSessionFlusher).1.captureRequestSessionEffect =
        RequestSessionEffect.discardedWithWarning) ∧
    (∀ rel, client.release = some rel → rel ≠ "" →
      (client.initSessionFlusher).2 = false ∧
      (client.initSessionFlusher).1.sessionFlusher =
        some (SessionFlusher.init client.transport rel client.environment)) := by
  have hexc : ∀ c : NodeClient, c.sessionFlusher = none →
      ∀ scope, c.captureException scope = scope := by
    intro c hc scope
    rcases scope with _ | s
    · rfl
    · simp [NodeClient.captureException, hc]
  have hevt : ∀ c : NodeClient, c.sessionFlusher = none →
      ∀ (e : Event) scope, c.captureEvent e scope = scope := by
    intro c hc e scope
    rcases scope with _ | s
    · rfl
    · simp [NodeClient.captureEvent, hc]
  constructor
  · rintro (h | h) <;>
    · have hid : client.initSessionFlusher = (client, true) := by
        simp [NodeClient.initSessionFlusher, h]
      rw [hid]
      exact ⟨rfl, rfl, hexc client hno, hevt client hno,
        by simp [NodeClient.captureRequestSessionEffect, hno]⟩
  · intro rel hrel hne
    simp [NodeClient.initSessionFlusher, hrel, hne]

/-- Witness for C9 on a client with no release configured. -/
theorem initSessionFlusher_release_guard_witness :
    (({ autoSessionTracking := true, release := none, environment := none,
        transport := 0, sessionFlusher := none } : NodeClient).initSessionFlusher).2 = true ∧
    (({ autoSessionTracking := true, release := none, environment := none,
        transport := 0, sessionFlusher := none } : NodeClient).initSessionFlusher).1 =
      { autoSessionTracking := true, release := none, environment := none,
        transport := 0, sessionFlusher := none } :=
  ⟨((initSessionFlusher_release_guard _ rfl).1 (Or.inl rfl)).1,
   ((initSessionFlusher_release_guard
      { autoSessionTracking := true, release := none, environment := none,
        transport := 0, sessionFlusher := none } rfl).1 (Or.inl rfl)).2.1⟩

/-- Claim C6: an explicit boolean `sampled` on the transaction context is
honored verbatim and recorded with method Explicit, for every sampling
configuration, sampler, parent decision and random draw. -/
theorem explicit_sampling_decision_dominates (cfg : SamplingConfig)
    (ctx : TransactionContext) (rnd : ℚ) (b : Bool)
    (h : ctx.sampled = some b) :
    (decideSampling cfg ctx rnd).sampled = b ∧
    (decideSampling cfg ctx rnd).method =
      some TransactionSamplingMethod.explicitDecision := by
  simp [decideSampling, h]

/-- Witness for C6: explicit `sampled: true` wins over a sampler and a rate
that would both decide `false`. -/
theorem explicit_sampling_decision_dominates_witness :
    (decideSampling
        { tracesSampleRate := some (SampleRateValue.numVal 0)
          tracesSampler := some fun _ => SampleRateValue.numVal 0 }
        { name := "dogpark", parentSampled := some false, sampled := some true }
        (1/2)).sampled = true ∧
    (decideSampling
        { tracesSampleRate := some (SampleRateValue.numVal 0)
          tracesSampler := some fun _ => SampleRateValue.numVal 0 }
        { name := "dogpark", parentSampled := some false, sampled := some true }
        (1/2)).method = some TransactionSamplingMethod.explicitDecision :=
  explicit_sampling_decision_dominates _ _ (1/2) true rfl

/-- Claim C7: the precedence chain below the explicit decision — a
configured sampler's (valid) result decides and overrides any parent
decision in both directions; with no sampler, a boolean `parentSampled`
decides verbatim with method Inheritance, overriding the configured rate;
with neither, the (valid) static rate decides; with neither a rate nor a
sampler configured the decision is `false`. -/
theorem sampling_precedence_chain (cfg : SamplingConfig)
    (ctx : TransactionContext) (rnd : ℚ) (h0 : 0 ≤ rnd) (h1 : rnd < 1)
    (hx : ctx.sampled = none) :
    (∀ f, cfg.tracesSampler = some f → isValidSampleRate (f ctx) = true →
      (decideSampling cfg ctx rnd).sampled = decide (rnd < toRateNum (f ctx)) ∧
      (decideSampling cfg ctx rnd).method =
        some TransactionSamplingMethod.sampler) ∧
    (∀ f b, cfg.tracesSampler = some f → f ctx = SampleRateValue.boolVal b →
      (decideSampling cfg ctx rnd).sampled = b) ∧
    (∀ r b, cfg.tracesSampler = none → cfg.tracesSampleRate = some r →
      ctx.parentSampled = some b →
      (decideSampling cfg ctx rnd).sampled = b ∧
      (decideSampling cfg ctx rnd).method =
        some TransactionSamplingMethod.inheritance) ∧
    (∀ r, cfg.tracesSampler = none → ctx.parentSampled = none →
      cfg.tracesSampleRate = some r → isValidSampleRate r = true →
      (decideSampling cfg ctx rnd).sampled = decide (rnd < toRateNum r) ∧
      (decideSampling cfg ctx rnd).method =
        some TransactionSamplingMethod.rate) ∧
    (cfg.tracesSampler = none → cfg.tracesSampleRate = none →
      (decideSampling cfg ctx rnd).sampled = false) := by
  refine ⟨?_, ?_, ?_, ?_, ?_⟩
  · intro f hf hv
    simp [decideSampling, hx, hf, hv]
  · intro f b hf hb
    have hv : isValidSampleRate (f ctx) = true := by
      rw [hb]; rfl
    rcases b with _ | _
    · have : ¬ rnd < toRateNum (f ctx) := by
        rw [hb]; simpa [toRateNum] using not_lt.mpr h0
      simp [decideSampling, hx, hf, hv, this]
    · have : rnd < toRateNum (f ctx) := by
        rw [hb]; simpa [toRateNum] using h1
      simp [decideSampling, hx, hf, hv, this]
  · intro r b hf hr hp
    simp [decideSampling, hx, hf, hr, hp]
  · intro r hf hp hr hv
    simp [decideSampling, hx, hf, hp, hr, hv]
  · intro hf hr
    simp [decideSampling, hx, hf, hr]

/-- Witness for C7: a sampler returning `true` overrides a `false` parent
decision. -/
theorem sampling_precedence_chain_witness :
    (decideSampling { tracesSampler := some fun _ => SampleRateValue.boolVal true }
        { name := "dogpark", parentSampled := some false } (1/2)).sampled = true :=
  (sampling_precedence_chain
      { tracesSampler := some fun _ => SampleRateValue.boolVal true }
      { name := "dogpark", parentSampled := some false } (1/2)
      (by norm_num) (by norm_num) rfl).2.1 _ true rfl rfl

/-- Counterexample to claim C8 as stated: an invalid configured rate does
not force the decision to `false` nor produce a warning when a boolean
parent decision is present — the precedence chain never consults the rate. -/
theorem invalid_rate_shadowed_by_parent_decision :
    isValidSampleRate SampleRateValue.otherVal = false ∧
    (decideSampling { tracesSampleRate := some SampleRateValue.otherVal }
        { name := "dogpark", parentSampled := some true } (1/2)).sampled = true ∧
    (decideSampling { tracesSampleRate := some SampleRateValue.otherVal }
        { name := "dogpark", parentSampled := some true } (1/2)).warnings = [] :=
  ⟨rfl, rfl, rfl⟩

/-- Claim C8 (amended): whenever the value the precedence chain actually
consults is invalid — a configured sampler's return value (with no explicit
decision), or the static rate (with no explicit decision, no sampler and no
boolean parent decision) being non-boolean and non-numeric, `NaN`, or a
number outside `[0, 1]` — the decision is `false` and exactly one warning is
logged, identifying wrong type versus out-of-bounds. -/
theorem invalid_rate_rejection (cfg : SamplingConfig)
    (ctx : TransactionContext) (rnd : ℚ) (hx : ctx.sampled = none) :
    (∀ f, cfg.tracesSampler = some f → isValidSampleRate (f ctx) = false →
      (decideSampling cfg ctx rnd).sampled = false ∧
      (decideSampling cfg ctx rnd).warnings = rateWarnings (f ctx) ∧
      (rateWarnings (f ctx)).length = 1) ∧
    (∀ v, cfg.tracesSampler = none → ctx.parentSampled = none →
      cfg.tracesSampleRate = some v → isValidSampleRate v = false →
      (decideSampling cfg ctx rnd).sampled = false ∧
      (decideSampling cfg ctx rnd).warnings = rateWarnings v ∧
      (rateWarnings v).length = 1) ∧
    rateWarnings SampleRateValue.nanVal = [SamplingWarning.invalidType] ∧
    rateWarnings SampleRateValue.otherVal = [SamplingWarning.invalidType] ∧
    (∀ q : ℚ, ¬(0 ≤ q ∧ q ≤ 1) →
      rateWarnings (SampleRateValue.numVal q) = [SamplingWarning.outOfRange]) := by
  have hlen : ∀ v, isValidSampleRate v = false → (rateWarnings v).length = 1 := by
    intro v hv
    cases v with
    | boolVal b => simp [isValidSampleRate] at hv
    | numVal q =>
      simp only [isValidSampleRate, Bool.and_eq_false_iff, decide_eq_false_iff_not] at hv
      have : ¬(0 ≤ q ∧ q ≤ 1) := by
        rintro ⟨ha, hb⟩
        rcases hv with h | h <;> [exact h ha; exact h hb]
      simp [rateWarnings, this]
    | nanVal => rfl
    | otherVal => rfl
  refine ⟨?_, ?_, rfl, rfl, ?_⟩
  · intro f hf hv
    refine ⟨?_, ?_, hlen _ hv⟩ <;> simp [decideSampling, hx, hf, hv]
  · intro v hf hp hr hv
    refine ⟨?_, ?_, hlen _ hv⟩ <;> simp [decideSampling, hx, hf, hp, hr, hv]
  · intro q hq
    simp [rateWarnings, hq]

/-- Witness for the amended C8: a non-numeric static rate with no parent
decision forces `false` with a single wrong-type warning. -/
theorem invalid_rate_rejection_witness :
    (decideSampling { tracesSampleRate := some SampleRateValue.otherVal }
        { name := "dogpark" } (1/2)).sampled = false ∧
    (decideSampling { tracesSampleRate := some SampleRateValue.otherVal }
        { name := "dogpark" } (1/2)).warnings = [SamplingWarning.invalidType] :=
  ⟨((invalid_rate_rejection { tracesSampleRate := some SampleRateValue.otherVal }
      { name := "dogpark" } (1/2) rfl).2.1 SampleRateValue.otherVal rfl rfl rfl
      rfl).1,
   ((invalid_rate_rejection { tracesSampleRate := some SampleRateValue.otherVal }
      { name := "dogpark" } (1/2) rfl).2.1 SampleRateValue.otherVal rfl rfl rfl
      rfl).2.1⟩

end Sentry
